import Mathlib

set_option linter.unusedVariables false
set_option maxRecDepth 8192

/-!
Verification of the view-state synchronization and demo-playback mechanism of
the dashboard front end (src/frontend/src/App.js).  The React component is
shallowly embedded: each `useState` slot becomes a field of `AppState`, each
`setX(v)` becomes a functional record update, `fetch` results are supplied by
the environment as `FetchResult` values, and the network requests and alerts
produced by a handler are collected as explicit traces.
-/

namespace RecruiterApp

/-- JSON values as consumed by the front end.  Numbers are modelled as
integers; no fractional number takes part in any verified property. -/
inductive Json where
  | null : Json
  | bool : Bool → Json
  | num : Int → Json
  | str : String → Json
  | arr : List Json → Json
  | obj : List (String × Json) → Json

/-- JavaScript truthiness of a JSON value: null, false, 0 and the empty
string are falsy; arrays and objects are always truthy. -/
def Json.truthy : Json → Bool
  | .null => false
  | .bool b => b
  | .num n => n != 0
  | .str s => s != ""
  | .arr _ => true
  | .obj _ => true

/-- Property access `j.key`: `none` models undefined (missing key, or access
on a non-object value). -/
def Json.get : Json → String → Option Json
  | .obj fields, k => fields.lookup k
  | _, _ => none

/-- Index access `j[n]` on an array value; `none` models undefined. -/
def Json.idx : Json → Nat → Option Json
  | .arr xs, n => xs.get? n
  | _, _ => none

/-- Optional chaining `o?.key`. -/
def optGet (o : Option Json) (k : String) : Option Json :=
  o.bind (fun j => j.get k)

/-- Optional chaining `o?.[n]`. -/
def optIdx (o : Option Json) (n : Nat) : Option Json :=
  o.bind (fun j => j.idx n)

/-- Truthiness of a possibly-undefined value (undefined is falsy). -/
def optTruthy (o : Option Json) : Bool :=
  match o with
  | some j => j.truthy
  | none => false

/-- The nine named view-state slots populated by the batch fetch in
`fetchData` (App.js lines 33 to 52). -/
inductive Slot where
  | apiStatus | agents | dashboardStats | pipeline | funnel | jobs
  | screeningQueue | eliteSources | auditCompliance
deriving DecidableEq

/-- One entry of the agent activity log.  The source field named `type` is
called `kind` here because `type` is reserved in Lean. -/
structure LogEntry where
  timestamp : String
  agent : String
  message : String
  kind : String
deriving DecidableEq

/-- Outcome of one `fetch` call as seen by the component: a rejected promise
(network error, carrying the error message), or a response with an HTTP
status and a body that either parses as JSON or fails to parse (carrying the
parse error message).  `fetch` resolves on any HTTP status; it rejects only
on a network error. -/
inductive FetchResult where
  | netError (msg : String)
  | response (status : Nat) (body : Except String Json)

/-- The JSON body obtained from `await res.json()`: `none` when the fetch
rejected or the body does not parse as JSON. -/
def FetchResult.jsonBody : FetchResult → Option Json
  | .netError _ => none
  | .response _ (.ok j) => some j
  | .response _ (.error _) => none

/-- Whether the fetch itself rejected (network error). -/
def FetchResult.isNetError : FetchResult → Bool
  | .netError _ => true
  | _ => false

/-- The view state of the component: one field per `useState` hook that the
verified properties touch. -/
structure AppState where
  slots : Slot → Option Json
  candidates : Json
  demoRunning : Bool
  demoState : Option Json
  loading : Bool
  activeTab : String
  agentLogs : List LogEntry

/-- Initial state produced by the `useState` initializers (App.js lines
5 to 19): every slot null, `candidates` an empty array, `loading` true. -/
def initState : AppState where
  slots := fun _ => none
  candidates := .arr []
  demoRunning := false
  demoState := none
  loading := true
  activeTab := "dashboard"
  agentLogs := []

/-- A network request issued by the component; `url` is the path appended to
the constant `config.API_URL` prefix, which is dropped here. -/
structure Request where
  url : String
  method : String
  body : Option Json

/-- A user-visible alert: either the stringified response data or an error
message (`alert(JSON.stringify(data, null, 2))` and
`alert('Error: ' + err.message)` in the source; the string formatting is
abstracted away, the payload is kept). -/
inductive Alert where
  | data (j : Json)
  | error (msg : String)

/-- Environment for one batch fetch: the outcome of each of the nine GETs. -/
abbrev Batch := Slot → FetchResult

/-- The order in which `fetchData` awaits and stores the nine parsed bodies
(App.js lines 44 to 52). -/
def batchOrder : List Slot :=
  [.apiStatus, .agents, .dashboardStats, .pipeline, .funnel, .jobs,
   .screeningQueue, .eliteSources, .auditCompliance]

/-- Endpoint path of each slot (App.js lines 34 to 42). -/
def slotUrl : Slot → String
  | .apiStatus => "/"
  | .agents => "/api/agents"
  | .dashboardStats => "/api/dashboard/stats"
  | .pipeline => "/api/pipeline"
  | .funnel => "/api/pipeline/funnel"
  | .jobs => "/api/jobs"
  | .screeningQueue => "/api/screening/queue"
  | .eliteSources => "/api/sources"
  | .auditCompliance => "/api/audit/compliance-report"

/-- The nine GET requests issued by one batch fetch. -/
def fetchDataRequests : List Request :=
  batchOrder.map (fun sl => ⟨slotUrl sl, "GET", none⟩)

/-- Store a parsed body into one named slot (a `setX(await res.json())`
call). -/
def setSlot (s : AppState) (sl : Slot) (v : Json) : AppState :=
  { s with slots := fun x => if x = sl then some v else s.slots x }

/-- The sequential tail of `fetchData` after `Promise.all` resolved: for each
slot in order, await the parse of its body and store it; the first body that
fails to parse throws into the `catch`, leaving the remaining slots
untouched (App.js lines 44 to 53). -/
def applySets (rs : Batch) : List Slot → AppState → AppState
  | [], s => s
  | sl :: rest, s =>
    match rs sl with
    | .response _ (.ok j) => applySets rs rest (setSlot s sl j)
    | _ => s

/-- The Data Fetcher `fetchData` (App.js lines 30 to 55): set loading, issue
the nine GETs via `Promise.all` (which rejects as a whole if any fetch
rejects, in which case the `catch` runs and no slot is stored), otherwise
parse and store the bodies sequentially, and finally clear loading in every
case. -/
def fetchData (rs : Batch) (s : AppState) : AppState :=
  let s1 := { s with loading := true }
  let s2 :=
    if batchOrder.any (fun sl => (rs sl).isNetError) then s1
    else applySets rs batchOrder s1
  { s2 with loading := false }

/-- Result of one `callEndpoint` invocation: the value returned to the
caller, the state after the call, and the traces of requests issued and
alerts shown. -/
structure CallResult where
  data : Option Json
  state : AppState
  requests : List Request
  alerts : List Alert

/-- The Action Dispatcher `callEndpoint` (App.js lines 59 to 73): issue one
request; on a parsed JSON body (any HTTP status, since `res.ok` is never
inspected) alert the data if `showAlert`, trigger a full `fetchData` refresh
(issuing the nine batch GETs), and return the data; on a rejected fetch or a
non-JSON body the `catch` alerts the error if `showAlert` and returns null,
with no refresh.  `rs` supplies the batch outcomes for the triggered
refresh. -/
def callEndpoint (endpoint method : String) (body : Option Json)
    (showAlert : Bool) (res : FetchResult) (rs : Batch) (s : AppState) :
    CallResult :=
  let req : Request := ⟨endpoint, method, body⟩
  match res with
  | .netError m => ⟨none, s, [req], if showAlert then [.error m] else []⟩
  | .response _ (.error m) =>
      ⟨none, s, [req], if showAlert then [.error m] else []⟩
  | .response _ (.ok j) =>
      ⟨some j, fetchData rs s, req :: fetchDataRequests,
       if showAlert then [.data j] else []⟩

/-- The fixed POST body of `searchCandidates` (App.js lines 76 to 80). -/
def searchBody : Json :=
  .obj [("role", .str "Senior Robotics Engineer"),
        ("skills", .arr [.str "ROS/ROS2", .str "Python", .str "C++",
                         .str "Computer Vision", .str "SLAM"]),
        ("experience_min", .num 5)]

/-- State and traces produced by one user-triggered handler. -/
structure StepResult where
  state : AppState
  requests : List Request
  alerts : List Alert

/-- The `searchCandidates` handler (App.js lines 75 to 84): POST the fixed
search body without alerting, and replace `candidates` only when the
returned data has a truthy `candidates` field. -/
def searchCandidates (res : FetchResult) (rs : Batch) (s : AppState) :
    StepResult :=
  let c := callEndpoint "/api/candidates/search" "POST" (some searchBody)
    false res rs s
  match c.data with
  | some d =>
      if optTruthy (d.get "candidates") then
        ⟨{ c.state with candidates := (d.get "candidates").getD .null },
         c.requests, c.alerts⟩
      else ⟨c.state, c.requests, c.alerts⟩
  | none => ⟨c.state, c.requests, c.alerts⟩

/-- One step of the scripted demo: the `(agent, message, kind)` of the
`addLog` call and the duration of the `setTimeout` suspension that follows
it (0 for the last entry, which has none). -/
structure ScriptStep where
  agent : String
  message : String
  kind : String
  delayMs : Nat
deriving DecidableEq

/-- The fixed playback script of `runDemoWorkflow` (App.js lines 91 to 151),
in order. -/
def demoScript : List ScriptStep :=
  [⟨"Orchestrator", "Initializing recruiting workflow...", "system", 400⟩,
   ⟨"Orchestrator", "Dispatching SourcerAgent for candidate discovery", "info", 300⟩,
   ⟨"SourcerAgent", "Connecting to 16 elite sources...", "info", 500⟩,
   ⟨"SourcerAgent", "Searching ArXiv for \"robotics manipulation SLAM\"...", "search", 400⟩,
   ⟨"SourcerAgent", "Searching HuggingFace for model contributors...", "search", 350⟩,
   ⟨"SourcerAgent", "Scanning Papers with Code for recent authors...", "search", 400⟩,
   ⟨"SourcerAgent", "Querying ROS Discourse for active contributors...", "search", 300⟩,
   ⟨"SourcerAgent", "Found 15 candidates from 6 sources", "success", 400⟩,
   ⟨"Orchestrator", "Dispatching MatcherAgent for skills analysis", "info", 300⟩,
   ⟨"MatcherAgent", "Extracting research profiles (H-index, citations)...", "info", 450⟩,
   ⟨"MatcherAgent", "Applying research-weighted scoring (25% weight)...", "info", 400⟩,
   ⟨"MatcherAgent", "Detected 3 independent researchers - applying 10% boost", "success", 350⟩,
   ⟨"MatcherAgent", "Skills match complete: 5 candidates above 75% threshold", "success", 400⟩,
   ⟨"Orchestrator", "Dispatching ScreenerAgent for AI screening", "info", 300⟩,
   ⟨"ScreenerAgent", "Running automated screening checks...", "info", 500⟩,
   ⟨"ScreenerAgent", "Flagged 3 candidates for human review (borderline scores)", "warning", 350⟩,
   ⟨"ScreenerAgent", "Auto-approved 2 candidates (score > 85%)", "success", 400⟩,
   ⟨"AuditAgent", "Logging decisions with full explainability...", "audit", 300⟩,
   ⟨"AuditAgent", "Zero PII stored - only hashed candidate IDs", "audit", 350⟩,
   ⟨"PipelineAgent", "Moving candidates to appropriate pipeline stages", "info", 400⟩,
   ⟨"Orchestrator", "Workflow complete! Human review required for 3 candidates", "success", 0⟩]

/-- The functional update inside `setAgentLogs` (App.js line 27):
`prev => [...prev.slice(-50), entry]`; `slice(-50)` keeps the last 50
entries, so the appended list can hold up to 51. -/
def pushLog (logs : List LogEntry) (e : LogEntry) : List LogEntry :=
  logs.drop (logs.length - 50) ++ [e]

/-- The `addLog` helper (App.js lines 25 to 28); the timestamp string is
supplied by the clock. -/
def addLog (ts agent message kind : String) (s : AppState) : AppState :=
  { s with agentLogs := pushLog s.agentLogs ⟨ts, agent, message, kind⟩ }

/-- The Playing phase of `runDemoWorkflow` (App.js lines 87 to 151): set
`demoRunning`, clear the log, then append the scripted entries in order.
`ts` is the wall clock: the timestamp string observed at the i-th append. -/
def runDemoPlay (ts : Nat → String) (s : AppState) : AppState :=
  demoScript.enum.foldl
    (fun acc p => addLog (ts p.1) p.2.agent p.2.message p.2.kind acc)
    { s with demoRunning := true, agentLogs := [] }

/-- The optional chain `data.steps?.[0]?.data?.top_3` (App.js line 157). -/
def top3Of (o : Option Json) : Option Json :=
  optGet (optGet (optIdx (optGet o "steps") 0) "data") "top_3"

/-- The state update after the demo fetch returns (App.js lines 155 to 160):
when the data is non-null, store it into `demoState` and, when the nested
`top_3` chain is truthy, replace `candidates` with it. -/
def demoApply (data : Option Json) (s : AppState) : AppState :=
  match data with
  | some d =>
      let sD := { s with demoState := some d }
      if optTruthy (top3Of (some d)) then
        { sD with candidates := (top3Of (some d)).getD .null }
      else sD
  | none => s

/-- The complete `runDemoWorkflow` handler (App.js lines 86 to 162): play
the script, perform the terminal `callEndpoint` to `/api/demo/workflow`
(which on success also triggers the batch refresh), apply the demo data,
and clear `demoRunning` unconditionally.  Note that the function body has no
re-entrancy guard of its own. -/
def runDemoWorkflow (ts : Nat → String) (res : FetchResult) (rs : Batch)
    (s : AppState) : StepResult :=
  let s1 := runDemoPlay ts s
  let c := callEndpoint "/api/demo/workflow" "GET" none false res rs s1
  let s2 := demoApply c.data c.state
  ⟨{ s2 with demoRunning := false }, c.requests, c.alerts⟩

/-- The `disabled={demoRunning}` attribute of the Run Full Demo button
(App.js line 253). -/
def runDemoButtonDisabled (s : AppState) : Bool :=
  s.demoRunning

/-- A click on the Run Full Demo button: a disabled button fires no click
handler, so the click is a no-op while `demoRunning` holds; otherwise it
invokes `runDemoWorkflow` (App.js lines 250 to 256). -/
def clickRunDemo (ts : Nat → String) (res : FetchResult) (rs : Batch)
    (s : AppState) : StepResult :=
  if runDemoButtonDisabled s then ⟨s, [], []⟩
  else runDemoWorkflow ts res rs s

/-- One tab descriptor of the nav array (App.js lines 912 to 920).  The
source fields `public` and `show` are called `isPublic` and `shown` here
because of Lean keywords. -/
structure TabDef where
  id : String
  label : String
  isPublic : Bool
  shown : Bool

/-- The JavaScript comparison `screeningQueue?.queue_length > 0`: true
exactly when the value is a number greater than zero (undefined compares
false). -/
def queueLengthPos (q : Option Json) : Bool :=
  match optGet q "queue_length" with
  | some (.num n) => decide (0 < n)
  | _ => false

/-- The tab array literal (App.js lines 912 to 920); the Review tab's
`show` flag is the positive-queue test on the screening queue slot `q`. -/
def appTabs (q : Option Json) : List TabDef :=
  [⟨"dashboard", "Dashboard", true, true⟩,
   ⟨"safetycase", "SafetyCaseAI", true, true⟩,
   ⟨"sources", "Elite Sources", false, true⟩,
   ⟨"pipeline", "Pipeline", false, true⟩,
   ⟨"review", "Review", false, queueLengthPos q⟩,
   ⟨"audit", "Compliance", false, true⟩,
   ⟨"agents", "AI Agents", true, true⟩,
   ⟨"architecture", "Architecture", false, true⟩]

/-- The rendered nav buttons (App.js lines 912 to 929): the tabs filtered by
`(isInternalMode || t.public) && t.show`, each paired with its queue badge:
the Review button carries the `queue_length` value when positive, every
other button carries no queue badge (the constant NEW label on the
SafetyCaseAI tab is static text, not state, and is not modelled). -/
def navButtons (internal : Bool) (q : Option Json) :
    List (String × Option Json) :=
  ((appTabs q).filter (fun t => (internal || t.isPublic) && t.shown)).map
    (fun t =>
      (t.id, if t.id == "review" && queueLengthPos q then
               optGet q "queue_length"
             else none))

/-- A user-visible event handled by the component, together with the
network environment it runs against. -/
inductive UIEvent where
  | mount (rs : Batch)
  | refreshClick (rs : Batch)
  | runDemoClick (ts : Nat → String) (res : FetchResult) (rs : Batch)
  | sourceCandidatesClick (res : FetchResult) (rs : Batch)
  | actionClick (endpoint method : String) (body : Option Json)
      (showAlert : Bool) (res : FetchResult) (rs : Batch)
  | selectTab (id : String)

/-- One step of the component: dispatch an event to its handler.  The
`internal` flag (the `?internal=true` query parameter, App.js line 22) is in
scope for every handler, exactly as `isInternalMode` is in scope in the
component body; no handler reads it. -/
def appStep (internal : Bool) (e : UIEvent) (s : AppState) : StepResult :=
  match e with
  | .mount rs => ⟨fetchData rs s, fetchDataRequests, []⟩
  | .refreshClick rs => ⟨fetchData rs s, fetchDataRequests, []⟩
  | .runDemoClick ts res rs => clickRunDemo ts res rs s
  | .sourceCandidatesClick res rs => searchCandidates res rs s
  | .actionClick ep m b sa res rs =>
      let c := callEndpoint ep m b sa res rs s
      ⟨c.state, c.requests, c.alerts⟩
  | .selectTab id => ⟨{ s with activeTab := id }, [], []⟩

/-- A run of the component over a sequence of events, accumulating the
issued requests and shown alerts. -/
def appRun (internal : Bool) (events : List UIEvent) (s : AppState) :
    AppState × List Request × List Alert :=
  events.foldl
    (fun acc e =>
      let r := appStep internal e acc.1
      (r.state, acc.2.1 ++ r.requests, acc.2.2 ++ r.alerts))
    (s, [], [])

/-- Projection of a log onto the `(agent, message, kind)` triples. -/
def logTriples (logs : List LogEntry) : List (String × String × String) :=
  logs.map (fun e => (e.agent, e.message, e.kind))

/-- The log produced by one playback under clock `ts`. -/
def demoLogs (ts : Nat → String) : List LogEntry :=
  demoScript.enum.map (fun p => ⟨ts p.1, p.2.agent, p.2.message, p.2.kind⟩)

/-- Concrete fixture: a batch where every endpoint answers 200 with JSON
null. -/
def goodBatch : Batch := fun _ => .response 200 (.ok .null)

/-- Concrete fixture: a batch where every fetch rejects. -/
def netBatch : Batch := fun _ => .netError "Failed to fetch"

/-- Concrete fixture: a successful status payload. -/
def jStatus : Json :=
  .obj [("service", .str "recruiting-api"), ("status", .str "ok")]

/-- Concrete fixture: the first endpoint answers parseable JSON, the second
answers 200 with a body that is not JSON, the rest answer JSON null. -/
def badBatch : Batch := fun sl =>
  match sl with
  | .apiStatus => .response 200 (.ok jStatus)
  | .agents => .response 200 (.error "Unexpected token < in JSON")
  | _ => .response 200 (.ok .null)

/-- Concrete fixture: a successful demo workflow response. -/
def demoOkRes : FetchResult :=
  .response 200 (.ok (.obj [("steps", .arr []), ("summary", .obj [])]))

/-- Concrete fixture: a state captured mid-playback, with the first scripted
entry already logged and `demoRunning` set. -/
def busyState : AppState :=
  { initState with
    demoRunning := true,
    agentLogs := [⟨"00:00:00", "Orchestrator",
                   "Initializing recruiting workflow...", "system"⟩] }

/-- Concrete fixture: a non-2xx response whose body is valid JSON. -/
def errBody : Json := .obj [("error", .str "Internal Server Error")]

/-- Concrete fixture: a screening-queue slot with `queue_length = 3`. -/
def q3 : Option Json := some (.obj [("queue_length", .num 3)])

/-- Concrete fixture: one log entry per index, used to append 60 entries. -/
def entry60 (i : Nat) : LogEntry :=
  ⟨"00:00:00", "SourcerAgent", toString i, "info"⟩

/-- Concrete fixture: sixty distinct log entries. -/
def sixtyEntries : List LogEntry := (List.range 60).map entry60

/-- The alert produced by one `callEndpoint` outcome when surfacing is
enabled: the data on a parsed body, the error message otherwise. -/
def alertOf : FetchResult → Alert
  | .netError m => .error m
  | .response _ (.error m) => .error m
  | .response _ (.ok j) => .data j

/-- Helper: `applySets` touches only the `slots` field; every other field of
the state is preserved. -/
theorem applySets_preserves (rs : Batch) (l : List Slot) (s : AppState) :
    (applySets rs l s).candidates = s.candidates ∧
    (applySets rs l s).demoState = s.demoState ∧
    (applySets rs l s).agentLogs = s.agentLogs ∧
    (applySets rs l s).demoRunning = s.demoRunning ∧
    (applySets rs l s).loading = s.loading := by
  induction l generalizing s with
  | nil => exact ⟨rfl, rfl, rfl, rfl, rfl⟩
  | cons sl rest ih =>
    cases h : rs sl with
    | netError m => simp [applySets, h]
    | response st b =>
      cases b with
      | ok j =>
        have := ih (setSlot s sl j)
        simpa [applySets, h, setSlot] using this
      | error m => simp [applySets, h]

/-- Helper: `fetchData` touches only the slots and the loading flag. -/
theorem fetchData_preserves (rs : Batch) (s : AppState) :
    (fetchData rs s).candidates = s.candidates ∧
    (fetchData rs s).demoState = s.demoState ∧
    (fetchData rs s).agentLogs = s.agentLogs ∧
    (fetchData rs s).demoRunning = s.demoRunning := by
  unfold fetchData
  cases hc : batchOrder.any (fun sl => (rs sl).isNetError) with
  | true => simp [hc]
  | false =>
    have := applySets_preserves rs batchOrder { s with loading := true }
    simpa [hc] using ⟨this.1, this.2.1, this.2.2.1, this.2.2.2.1⟩

/-- Helper: `demoApply` never touches the agent log. -/
theorem demoApply_agentLogs (d : Option Json) (s : AppState) :
    (demoApply d s).agentLogs = s.agentLogs := by
  cases d with
  | none => rfl
  | some j =>
    cases h : optTruthy (top3Of (some j)) <;> simp [demoApply, h]

/-- Helper: folding `addLog` over any list leaves, in the `agentLogs` field,
the fold of `pushLog` over the corresponding entries. -/
theorem addLog_foldl (es : List LogEntry) (s : AppState) :
    (es.foldl (fun st e => addLog e.timestamp e.agent e.message e.kind st)
        s).agentLogs
      = es.foldl pushLog s.agentLogs := by
  induction es generalizing s with
  | nil => rfl
  | cons e es ih =>
    rw [List.foldl_cons, List.foldl_cons]
    exact ih _

/-- Helper: the `agentLogs` produced by the playback fold is the `pushLog`
fold over the script entries. -/
theorem runDemoPlay_logs_aux (ts : Nat → String)
    (ps : List (Nat × ScriptStep)) (s : AppState) :
    (ps.foldl (fun acc p => addLog (ts p.1) p.2.agent p.2.message p.2.kind
        acc) s).agentLogs
      = (ps.map (fun p =>
          (⟨ts p.1, p.2.agent, p.2.message, p.2.kind⟩ : LogEntry))).foldl
          pushLog s.agentLogs := by
  induction ps generalizing s with
  | nil => rfl
  | cons p ps ih =>
    rw [List.foldl_cons, List.map_cons, List.foldl_cons]
    exact ih _

/-- Helper: folding `pushLog` from a start of at most 51 entries keeps, of
the concatenation, exactly the part beyond the first
`start + appended - 51` entries, i.e. the 51 most recent once that many
have accumulated. -/
theorem pushLog_foldl (es : List LogEntry) :
    ∀ acc : List LogEntry, acc.length ≤ 51 →
      es.foldl pushLog acc = (acc ++ es).drop (acc.length + es.length - 51)
    := by
  induction es with
  | nil =>
    intro acc h
    simp [Nat.sub_eq_zero_of_le h]
  | cons e es ih =>
    intro acc h
    rw [List.foldl_cons]
    rcases Nat.lt_or_ge acc.length 51 with hlt | hge
    · have hps : pushLog acc e = acc ++ [e] := by
        unfold pushLog
        rw [Nat.sub_eq_zero_of_le (by omega), List.drop_zero]
      rw [hps, ih (acc ++ [e]) (by simp; omega)]
      rw [List.append_assoc, List.singleton_append]
      congr 1
      simp
      omega
    · have h51 : acc.length = 51 := le_antisymm h hge
      have hps : pushLog acc e = acc.drop 1 ++ [e] := by
        unfold pushLog
        rw [h51]
      rw [hps, ih (acc.drop 1 ++ [e]) (by simp [h51])]
      rw [List.append_assoc, List.singleton_append]
      have hd : acc.drop 1 ++ e :: es = (acc ++ e :: es).drop 1 := by
        rw [List.drop_append_of_le_length (by omega)]
      rw [hd, List.drop_drop]
      congr 1
      simp [h51]
      omega

/-- Helper: the log of one playback is the script with timestamps filled in
by the clock (the script has 21 entries, below the cap, so nothing is
evicted). -/
theorem runDemoPlay_logs (ts : Nat → String) (s : AppState) :
    (runDemoPlay ts s).agentLogs = demoLogs ts := by
  unfold runDemoPlay
  rw [runDemoPlay_logs_aux]
  have hlen : (demoLogs ts).length = 21 := by
    simp [demoLogs, demoScript]
  show (demoLogs ts).foldl pushLog [] = demoLogs ts
  rw [pushLog_foldl (demoLogs ts) [] (by simp), List.nil_append,
      List.length_nil, hlen]
  rfl

/-- Helper: after a complete `runDemoWorkflow`, the agent log is exactly the
scripted log under the clock, whatever the terminal fetch returned. -/
theorem runDemo_agentLogs (ts : Nat → String) (res : FetchResult)
    (rs : Batch) (s : AppState) :
    (runDemoWorkflow ts res rs s).state.agentLogs = demoLogs ts := by
  cases res with
  | netError m => exact runDemoPlay_logs ts s
  | response st b =>
    cases b with
    | error m => exact runDemoPlay_logs ts s
    | ok j =>
      show (demoApply (some j) (fetchData rs (runDemoPlay ts s))).agentLogs
            = demoLogs ts
      rw [demoApply_agentLogs,
          (fetchData_preserves rs (runDemoPlay ts s)).2.2.1,
          runDemoPlay_logs]

/-- C1 counterexample: the claim asserts that if any one of the nine batched
requests fails (network error or non-JSON body) then no slot is updated.
In the code, bodies are parsed and stored sequentially after `Promise.all`
resolves, so when the second body fails to parse, the first slot has
already been stored: in `badBatch` the agents body is non-JSON
(`jsonBody = none`, no network error), yet starting from `initState` (all
slots null) the `apiStatus` slot ends up holding the parsed status body. -/
theorem C1_counterexample :
    (badBatch Slot.agents).jsonBody = none ∧
    (badBatch Slot.agents).isNetError = false ∧
    initState.slots Slot.apiStatus = none ∧
    (fetchData badBatch initState).slots Slot.apiStatus = some jStatus ∧
    (fetchData badBatch initState).loading = false := by
  refine ⟨rfl, rfl, rfl, ?_, rfl⟩
  rfl

/-- C1 amended: if any of the nine batched requests fails with a network
error, `Promise.all` rejects before any body is parsed, so no slot is
updated; and the loading flag ends false in every case.  (When every fetch
resolves but some body is non-JSON, the slots processed before the failing
parse keep their new values, as the counterexample shows.) -/
theorem C1_theorem (rs : Batch) (s : AppState) :
    (fetchData rs s).loading = false ∧
    ((∃ sl, (rs sl).isNetError = true) →
      ∀ sl, (fetchData rs s).slots sl = s.slots sl) := by
  constructor
  · rfl
  · rintro ⟨sl, h⟩ sl'
    have hc : batchOrder.any (fun x => (rs x).isNetError) = true := by
      refine List.any_eq_true.mpr ⟨sl, ?_, h⟩
      cases sl <;> simp [batchOrder]
    simp [fetchData, hc]

/-- C1 witness: with every fetch rejecting, the agents slot keeps its
pre-call value and loading ends false. -/
theorem C1_witness :
    (fetchData netBatch initState).loading = false ∧
    (fetchData netBatch initState).slots Slot.agents
      = initState.slots Slot.agents := by
  have h := C1_theorem netBatch initState
  exact ⟨h.1, h.2 ⟨Slot.apiStatus, rfl⟩ Slot.agents⟩

/-- C2 counterexample: the claim asserts that the Fetching phase issues
exactly one network request, the GET to `/api/demo/workflow`.  When that
request succeeds, `callEndpoint` triggers a full `fetchData` refresh, so
the phase also issues the nine batch GETs: the request trace is the demo
GET followed by the nine batch requests. -/
theorem C2_counterexample :
    (runDemoWorkflow (fun _ => "00:00:00") demoOkRes goodBatch
        initState).requests
      = ⟨"/api/demo/workflow", "GET", none⟩ :: fetchDataRequests ∧
    fetchDataRequests.length = 9 := ⟨rfl, rfl⟩

/-- C2 amended: the Fetching phase issues the GET to `/api/demo/workflow`;
when its body parses as JSON, the triggered `fetchData` refresh issues the
nine batch GETs as well, and when the fetch fails no further request is
issued. -/
theorem C2_theorem (ts : Nat → String) (res : FetchResult) (rs : Batch)
    (s : AppState) :
    (runDemoWorkflow ts res rs s).requests
      = ⟨"/api/demo/workflow", "GET", none⟩ ::
          (if res.jsonBody.isSome then fetchDataRequests else []) := by
  cases res with
  | netError m => rfl
  | response st b => cases b <;> rfl

/-- C3 counterexample: the claim asserts that a `fetchData` refresh is
triggered after every `callEndpoint` request, success or failure, unless
the caller opted out.  On a network error the `catch` returns null without
calling `fetchData`: the trace holds only the single request and the state
is untouched (no opt-out parameter exists in the code at all). -/
theorem C3_counterexample :
    (callEndpoint "/api/pipeline/metrics" "GET" none true
        (.netError "Failed to fetch") goodBatch initState).requests
      = [⟨"/api/pipeline/metrics", "GET", none⟩] ∧
    (callEndpoint "/api/pipeline/metrics" "GET" none true
        (.netError "Failed to fetch") goodBatch initState).state
      = initState := ⟨rfl, rfl⟩

/-- C3 amended: `callEndpoint` triggers the full `fetchData` refresh exactly
when the request produced a parseable JSON body (regardless of the
`showAlert` flag, which no parameter couples to the refresh); on a network
error or a non-JSON body no refresh happens and the state is unchanged. -/
theorem C3_theorem (endpoint method : String) (body : Option Json)
    (sa : Bool) (res : FetchResult) (rs : Batch) (s : AppState) :
    (callEndpoint endpoint method body sa res rs s).requests
      = ⟨endpoint, method, body⟩ ::
          (if res.jsonBody.isSome then fetchDataRequests else []) ∧
    (callEndpoint endpoint method body sa res rs s).state
      = (if res.jsonBody.isSome then fetchData rs s else s) := by
  cases res with
  | netError m => exact ⟨rfl, rfl⟩
  | response st b => cases b <;> exact ⟨rfl, rfl⟩

/-- C6 counterexample: the claim asserts that a non-2xx response makes
`callEndpoint` return null.  The code never inspects `res.ok` or the
status: a 500 response whose body is valid JSON is parsed and returned to
the caller. -/
theorem C6_counterexample :
    (callEndpoint "/api/jobs" "GET" none true
        (.response 500 (.ok errBody)) goodBatch initState).data
      = some errBody ∧
    ¬ (200 ≤ 500 ∧ 500 ≤ 299) := ⟨rfl, by decide⟩

/-- C6 amended: `callEndpoint` returns the parsed JSON body of the response
whatever its HTTP status, and null exactly on a network error or a
non-JSON body; an alert is shown exactly when `showAlert` is set — the
response data on success, the error message on failure. -/
theorem C6_theorem (endpoint method : String) (body : Option Json)
    (sa : Bool) (res : FetchResult) (rs : Batch) (s : AppState) :
    (callEndpoint endpoint method body sa res rs s).data = res.jsonBody ∧
    (callEndpoint endpoint method body sa res rs s).alerts
      = (if sa then [alertOf res] else []) := by
  cases res with
  | netError m => exact ⟨rfl, rfl⟩
  | response st b => cases b <;> exact ⟨rfl, rfl⟩

/-- Helper: folding `addLog` preserves the candidates, demo-state and
demo-running fields of the state. -/
theorem foldl_addLog_preserves (ts : Nat → String)
    (ps : List (Nat × ScriptStep)) (st : AppState) :
    (ps.foldl (fun acc p => addLog (ts p.1) p.2.agent p.2.message p.2.kind
        acc) st).candidates = st.candidates ∧
    (ps.foldl (fun acc p => addLog (ts p.1) p.2.agent p.2.message p.2.kind
        acc) st).demoState = st.demoState := by
  induction ps generalizing st with
  | nil => exact ⟨rfl, rfl⟩
  | cons p ps ih =>
    rw [List.foldl_cons]
    exact ih _

/-- Helper: the playing phase touches only `demoRunning` and the log;
`candidates` and `demoState` are preserved. -/
theorem runDemoPlay_preserves (ts : Nat → String) (s : AppState) :
    (runDemoPlay ts s).candidates = s.candidates ∧
    (runDemoPlay ts s).demoState = s.demoState := by
  exact foldl_addLog_preserves ts demoScript.enum
    { s with demoRunning := true, agentLogs := [] }

/-- C4 counterexample: the claim asserts that appending 60 entries via
`addLog` retains exactly the 50 most recent and that the log never exceeds
50 entries.  The functional update `[...prev.slice(-50), entry]` keeps the
last 50 and then appends, so the log reaches 51 entries: after 60 appends
starting from the initial empty log, 51 entries remain. -/
theorem C4_counterexample :
    (sixtyEntries.foldl
        (fun st e => addLog e.timestamp e.agent e.message e.kind st)
        initState).agentLogs.length = 51 ∧
    sixtyEntries.length = 60 := by
  constructor
  · rw [addLog_foldl sixtyEntries initState]
    show (sixtyEntries.foldl pushLog []).length = 51
    rw [pushLog_foldl sixtyEntries [] (by simp)]
    simp [sixtyEntries]
  · simp [sixtyEntries]

/-- C4 amended: appending entries via `addLog` to a state whose log starts
empty retains exactly the 51 most recent entries, in insertion order
(oldest first), and the log never holds more than 51 entries. -/
theorem C4_theorem (es : List LogEntry) (s : AppState)
    (h : s.agentLogs = []) :
    (es.foldl (fun st e => addLog e.timestamp e.agent e.message e.kind st)
        s).agentLogs = es.drop (es.length - 51) ∧
    (es.foldl (fun st e => addLog e.timestamp e.agent e.message e.kind st)
        s).agentLogs.length ≤ 51 := by
  have h1 := addLog_foldl es s
  rw [h, pushLog_foldl es [] (by simp)] at h1
  simp only [List.nil_append, List.length_nil, Nat.zero_add] at h1
  refine ⟨h1, ?_⟩
  rw [h1]
  simp only [List.length_drop]
  omega

/-- C4 witness: sixty appends onto the initial state keep exactly the last
51 entries, and the bound holds. -/
theorem C4_witness :
    (sixtyEntries.foldl
        (fun st e => addLog e.timestamp e.agent e.message e.kind st)
        initState).agentLogs = sixtyEntries.drop 9 ∧
    (sixtyEntries.foldl
        (fun st e => addLog e.timestamp e.agent e.message e.kind st)
        initState).agentLogs.length ≤ 51 :=
  C4_theorem sixtyEntries initState rfl

/-- C5 counterexample: the claim asserts that invoking `runDemoWorkflow`
while a playback is already running is a rejected no-op.  The function body
has no guard: from `busyState` (mid-playback, `demoRunning` true, one entry
logged) a direct second invocation proceeds — it wipes the log, replays all
21 scripted entries and resets `demoRunning` to false. -/
theorem C5_counterexample :
    busyState.demoRunning = true ∧
    busyState.agentLogs.length = 1 ∧
    (runDemoWorkflow (fun _ => "00:00:01") demoOkRes goodBatch
        busyState).state.agentLogs.length = 21 ∧
    (runDemoWorkflow (fun _ => "00:00:01") demoOkRes goodBatch
        busyState).state.demoRunning = false := by
  refine ⟨rfl, rfl, ?_, rfl⟩
  rw [runDemo_agentLogs]
  simp [demoLogs, demoScript]

/-- C5 amended: re-entrancy is prevented only at the UI layer — the Run
Full Demo button is disabled while `demoRunning` holds, so a click during
playback fires no handler and is a no-op; `runDemoWorkflow` itself contains
no guard, and a direct second invocation proceeds. -/
theorem C5_theorem (ts : Nat → String) (res : FetchResult) (rs : Batch)
    (s : AppState) (h : s.demoRunning = true) :
    clickRunDemo ts res rs s = ⟨s, [], []⟩ := by
  simp [clickRunDemo, runDemoButtonDisabled, h]

/-- C5 witness: a click while `busyState` is mid-playback leaves the state
untouched and issues nothing. -/
theorem C5_witness :
    clickRunDemo (fun _ => "00:00:01") demoOkRes goodBatch busyState
      = ⟨busyState, [], []⟩ :=
  C5_theorem (fun _ => "00:00:01") demoOkRes goodBatch busyState rfl

/-- C7: two invocations of the Demo Playback Engine with the terminal fetch
returning the same payload produce logs with identical
`(agent, message, kind)` triples in identical order — whatever the clocks,
batch environments and start states are — and those triples are exactly the
fixed script constant, not derived from any backend response. -/
theorem C7_theorem (ts1 ts2 : Nat → String) (res : FetchResult)
    (rs1 rs2 : Batch) (s1 s2 : AppState) :
    logTriples (runDemoWorkflow ts1 res rs1 s1).state.agentLogs
      = logTriples (runDemoWorkflow ts2 res rs2 s2).state.agentLogs ∧
    logTriples (runDemoWorkflow ts1 res rs1 s1).state.agentLogs
      = demoScript.map (fun st => (st.agent, st.message, st.kind)) := by
  have key : ∀ (ts : Nat → String) (rs : Batch) (s : AppState),
      logTriples (runDemoWorkflow ts res rs s).state.agentLogs
        = demoScript.map (fun st => (st.agent, st.message, st.kind)) := by
    intro ts rs s
    rw [runDemo_agentLogs]
    rfl
  exact ⟨(key ts1 rs1 s1).trans (key ts2 rs2 s2).symm, key ts1 rs1 s1⟩

/-- C8: the internal-mode flag (the `?internal=true` query parameter) has no
effect on the behaviour of any handler: a run of the component over any
event sequence produces the same final state, the same network requests and
the same alerts for every value of the flag.  (The flag is consulted only
by the rendering of tabs and branding, compare `navButtons`.) -/
theorem C8_theorem (i1 i2 : Bool) (events : List UIEvent) (s : AppState) :
    appRun i1 events s = appRun i2 events s := rfl

/-- C9 counterexample: the claim asserts the Review tab renders if and only
if the screening-queue slot holds a positive `queue_length`.  The tab is
also gated by `(isInternalMode || t.public)` with `public: false`, so in
public mode it does not render even with `queue_length = 3`; in internal
mode it renders with the badge showing 3. -/
theorem C9_counterexample :
    queueLengthPos q3 = true ∧
    (navButtons false q3).filter (fun b => b.1 == "review") = [] ∧
    (navButtons true q3).filter (fun b => b.1 == "review")
      = [("review", some (.num 3))] := ⟨rfl, rfl, rfl⟩

/-- C9 amended: the Review tab control renders exactly when internal mode
is on and the screening-queue slot holds a positive `queue_length`, and
when it renders its badge shows the `queue_length` value. -/
theorem C9_theorem (internal : Bool) (q : Option Json) :
    (navButtons internal q).filter (fun b => b.1 == "review")
      = (if internal && queueLengthPos q then
           [("review", optGet q "queue_length")]
         else []) := by
  cases internal <;> cases h : queueLengthPos q <;>
    simp [navButtons, appTabs, h]

/-- C10: error fallbacks leave the candidate list alone — when the search
response is null or lacks a truthy `candidates` field, `searchCandidates`
leaves `candidates` unchanged; when the demo response is null, `demoState`
is unchanged; and when the demo response lacks a truthy
`steps[0].data.top_3` chain, `candidates` is unchanged by the demo run. -/
theorem C10_theorem (ts : Nat → String) (res : FetchResult) (rs : Batch)
    (s : AppState) :
    (optTruthy (optGet res.jsonBody "candidates") = false →
      (searchCandidates res rs s).state.candidates = s.candidates) ∧
    (res.jsonBody = none →
      (runDemoWorkflow ts res rs s).state.demoState = s.demoState) ∧
    (optTruthy (top3Of res.jsonBody) = false →
      (runDemoWorkflow ts res rs s).state.candidates = s.candidates) := by
  refine ⟨?_, ?_, ?_⟩
  · intro h
    cases res with
    | netError m => rfl
    | response st b =>
      cases b with
      | error m => rfl
      | ok j =>
        have h' : optTruthy (Json.get j "candidates") = false := h
        simp [searchCandidates, callEndpoint, h']
        exact (fetchData_preserves rs s).1
  · intro h
    cases res with
    | netError m =>
      show (runDemoPlay ts s).demoState = s.demoState
      exact (runDemoPlay_preserves ts s).2
    | response st b =>
      cases b with
      | error m =>
        show (runDemoPlay ts s).demoState = s.demoState
        exact (runDemoPlay_preserves ts s).2
      | ok j => simp [FetchResult.jsonBody] at h
  · intro h
    cases res with
    | netError m =>
      show (runDemoPlay ts s).candidates = s.candidates
      exact (runDemoPlay_preserves ts s).1
    | response st b =>
      cases b with
      | error m =>
        show (runDemoPlay ts s).candidates = s.candidates
        exact (runDemoPlay_preserves ts s).1
      | ok j =>
        have h' : optTruthy (top3Of (some j)) = false := h
        show (demoApply (some j)
            (fetchData rs (runDemoPlay ts s))).candidates = s.candidates
        simp [demoApply, h']
        rw [(fetchData_preserves rs (runDemoPlay ts s)).1]
        exact (runDemoPlay_preserves ts s).1

/-- C10 witness: with a rejected fetch, the candidate list and the demo
state keep their initial values. -/
theorem C10_witness :
    (searchCandidates (.netError "Failed to fetch") goodBatch
        initState).state.candidates = initState.candidates ∧
    (runDemoWorkflow (fun _ => "00:00:00") (.netError "Failed to fetch")
        goodBatch initState).state.demoState = initState.demoState ∧
    (runDemoWorkflow (fun _ => "00:00:00") (.netError "Failed to fetch")
        goodBatch initState).state.candidates = initState.candidates := by
  have h := C10_theorem (fun _ => "00:00:00") (.netError "Failed to fetch")
    goodBatch initState
  exact ⟨h.1 rfl, h.2.1 rfl, h.2.2 rfl⟩

end RecruiterApp
